import Mathlib

/-!
Verification of the fast-delivery dispatch service (`src/main.py`).

The Python module is embedded shallowly: module-level float constants become
real constants, the per-UAV dict becomes a structure, the global `UAVS` dict
becomes a finite partial map keyed by the grid coordinates (the dict keys
`f"UAV_{gx}_{gy}"` are in bijection with the pairs `(gx, gy)`), and the
`POST /order` handler becomes a pure function of the geocoding outcome and
the fleet state, returning either a structured response (plus the updated
fleet and the optional CSV log row) or a `KeyError`, which FastAPI would
surface as a transport-level 500 error.  Arithmetic is ideal real
arithmetic; `math.sin`, `math.cos`, `math.asin`, `math.sqrt` and `math.pi`
are the Mathlib real functions.
-/

open scoped Classical

/-! ## Constants (main.py, CONSTANTS section) -/

noncomputable def LAT_MIN : ℝ := 32.1
noncomputable def LAT_MAX : ℝ := 32.8
noncomputable def LON_MIN : ℝ := 44.1
noncomputable def LON_MAX : ℝ := 44.8

noncomputable def GRID_KM : ℝ := 5.0
noncomputable def KM_PER_DEG_LAT : ℝ := 111.0
noncomputable def KM_PER_DEG_LON : ℝ := 94.0

noncomputable def UAV_SPEED_KMH : ℝ := 40.0
noncomputable def STEP_TIME : ℝ := 1.0

/-! ## Data model -/

/-- One entry of the global `UAVS` dict: the mutable per-vehicle record
`{"uav_id": ..., "lat": ..., "lon": ..., "status": ..., "target": ...}`.
The `uav_id` field is determined by the dict key and is never mutated, so it
is not repeated here; a target is the `{"lat": ..., "lon": ...}` pair. -/
structure UAV where
  lat : ℝ
  lon : ℝ
  status : String
  target : Option (ℝ × ℝ)

/-- The global `UAVS` dict, keyed by the grid pair encoded in the key string
`f"UAV_{gx}_{gy}"` (that encoding is injective, so keying by the pair is
equivalent); a missing key is `none` and a lookup of a missing key in Python
raises `KeyError`. -/
abbrev Fleet := ℤ × ℤ → Option UAV

/-- The vehicle that `init_uavs` stores under key `f"UAV_{gx}_{gy}"`. -/
noncomputable def init_uav (gx gy : ℤ) : UAV :=
  { lat := LAT_MIN + ((gy : ℝ) + 0.5) * GRID_KM / KM_PER_DEG_LAT
    lon := LON_MIN + ((gx : ℝ) + 0.5) * GRID_KM / KM_PER_DEG_LON
    status := "idle"
    target := none }

/-- The fleet built by `init_uavs()`: one UAV per cell with
`gx in range(0, 10)` and `gy in range(0, 10)`, nothing else. -/
noncomputable def init_uavs : Fleet := fun p =>
  if 0 ≤ p.1 ∧ p.1 ≤ 9 ∧ 0 ≤ p.2 ∧ p.2 ≤ 9 then some (init_uav p.1 p.2) else none

/-! ## Grid mapping and distance -/

/-- `latlon_to_grid`: Python float floor-division `//` followed by `int(...)`
is, in ideal arithmetic, the integer floor (the float result of `//` is
already floored, so `int` is exact on it). -/
noncomputable def latlon_to_grid (lat lon : ℝ) : ℤ × ℤ :=
  (⌊(lon - LON_MIN) * KM_PER_DEG_LON / GRID_KM⌋,
   ⌊(lat - LAT_MIN) * KM_PER_DEG_LAT / GRID_KM⌋)

/-- `math.radians`. -/
noncomputable def radians (x : ℝ) : ℝ := x * Real.pi / 180

/-- `haversine` from main.py.  `math.asin` raises on arguments outside
`[-1, 1]` while `Real.arcsin` clamps, but the argument `√a` only exceeds 1
for coordinate differences far larger than any the service handles. -/
noncomputable def haversine (lat1 lon1 lat2 lon2 : ℝ) : ℝ :=
  let R : ℝ := 6371.0
  let dlat := radians (lat2 - lat1)
  let dlon := radians (lon2 - lon1)
  let a := Real.sin (dlat / 2) ^ 2 +
    Real.cos (radians lat1) * Real.cos (radians lat2) * Real.sin (dlon / 2) ^ 2
  2 * R * Real.arcsin (Real.sqrt a)

/-! ## Movement loop -/

/-- `step_km = (UAV_SPEED_KMH / 3600.0) * STEP_TIME` in `uav_movement_loop`. -/
noncomputable def step_per_tick : ℝ := UAV_SPEED_KMH / 3600.0 * STEP_TIME

/-- The body of `uav_movement_loop` for one vehicle `u` on one tick: arrival
snap when the haversine distance to the target is below 0.05 km, otherwise a
fixed-length step toward the target (the `lon` update reads the `lat`
mutated line's old inputs, so the simultaneous record update is exact). -/
noncomputable def tick (u : UAV) : UAV :=
  match u.target with
  | none => u
  | some t =>
      let dist := haversine u.lat u.lon t.1 t.2
      if dist < 0.05 then
        { lat := t.1, lon := t.2, status := "idle", target := none }
      else
        { u with
            lat := u.lat + (t.1 - u.lat) * step_per_tick / dist
            lon := u.lon + (t.2 - u.lon) * step_per_tick / dist }

/-- One pass of the `for u in UAVS.values()` loop: every vehicle is updated
independently by `tick`. -/
noncomputable def tick_fleet (f : Fleet) : Fleet := fun p => (f p).map tick

/-! ## Dispatch -/

/-- Step 5 of `create_order`: `uav["target"] = {...}; uav["status"] = "delivering"`. -/
noncomputable def assign_target (u : UAV) (lat lon : ℝ) : UAV :=
  { u with target := some (lat, lon), status := "delivering" }

/-- Pure ETA contract instantiated by `create_order`:
`eta_min = (dist / UAV_SPEED_KMH) * 60.0`. -/
noncomputable def eta_minutes (distance_km speed_kmh : ℝ) : ℝ :=
  distance_km / speed_kmh * 60.0

/-- Python `round(x, d)` in ideal arithmetic.  Mathlib `round` breaks ties
upward while Python breaks them to even; the two differ only on exact ties,
which no claim observes. -/
noncomputable def roundTo (d : ℕ) (x : ℝ) : ℝ := (round (x * 10 ^ d) : ℝ) / 10 ^ d

/-- The key string `f"UAV_{gx}_{gy}"`. -/
def uav_key (gx gy : ℤ) : String := "UAV_" ++ toString gx ++ "_" ++ toString gy

/-- The JSON object returned by `create_order`, with `none` for the keys a
given branch omits. -/
structure OrderResponse where
  order_id : ℤ
  input_place : Option String
  location : Option (ℝ × ℝ)
  grid : Option (ℤ × ℤ)
  assigned_uav : Option String
  eta_minutes : Option ℝ
  status : String
  reason : Option String

/-- One CSV row appended by `log_order` (the wall-clock timestamp column is
outside the model). -/
structure LogEntry where
  order_id : ℤ
  place : String
  uav : String
  eta : ℝ

/-- The `POST /order` handler.  The external geocoder (`geocode_osm`) is a
network collaborator, so its outcome is a parameter: `none` models the
`(None, None)` return.  The result is `Except.error` exactly when
`UAVS[uav_id]` raises `KeyError` (FastAPI then answers with a transport-level
500 instead of a structured body). -/
noncomputable def create_order (order_id : ℤ) (place : String) (geo : Option (ℝ × ℝ))
    (fleet : Fleet) : Except String (OrderResponse × Fleet × Option LogEntry) :=
  match geo with
  | none =>
      Except.ok
        ({ order_id := order_id, input_place := none, location := none, grid := none,
           assigned_uav := none, eta_minutes := none, status := "failed",
           reason := some ("Location not found") }, fleet, none)
  | some p =>
      if ¬ (LAT_MIN ≤ p.1 ∧ p.1 ≤ LAT_MAX ∧ LON_MIN ≤ p.2 ∧ p.2 ≤ LON_MAX) then
        Except.ok
          ({ order_id := order_id, input_place := none, location := some p, grid := none,
             assigned_uav := none, eta_minutes := none, status := "rejected",
             reason := some ("Outside service area") }, fleet, none)
      else
        let g := latlon_to_grid p.1 p.2
        match fleet g with
        | none => Except.error ("KeyError")
        | some uav =>
            let dist := haversine uav.lat uav.lon p.1 p.2
            let eta_min := eta_minutes dist UAV_SPEED_KMH
            Except.ok
              ({ order_id := order_id, input_place := some place, location := some p,
                 grid := some g, assigned_uav := some (uav_key g.1 g.2),
                 eta_minutes := some (roundTo 1 eta_min), status := "accepted",
                 reason := none },
               Function.update fleet g (some (assign_target uav p.1 p.2)),
               some { order_id := order_id, place := place, uav := uav_key g.1 g.2,
                      eta := roundTo 2 eta_min })

/-! ## Helper lemmas -/

lemma floor_eq_of_bounds (r : ℝ) (n : ℤ) (h1 : (n : ℝ) ≤ r) (h2 : r < n + 1) :
    ⌊r⌋ = n := by
  rw [Int.floor_eq_iff]
  · exact ⟨h1, h2⟩

lemma grid_at_327_4445 : latlon_to_grid 32.7 44.45 = (6, 13) := by
  unfold latlon_to_grid LON_MIN LAT_MIN KM_PER_DEG_LON KM_PER_DEG_LAT GRID_KM
  refine Prod.ext ?_ ?_ <;> simp only
  · exact floor_eq_of_bounds _ 6 (by norm_num) (by norm_num)
  · exact floor_eq_of_bounds _ 13 (by norm_num) (by norm_num)

lemma grid_at_latmax : latlon_to_grid 32.8 44.45 = (6, 15) := by
  unfold latlon_to_grid LON_MIN LAT_MIN KM_PER_DEG_LON KM_PER_DEG_LAT GRID_KM
  refine Prod.ext ?_ ?_ <;> simp only
  · exact floor_eq_of_bounds _ 6 (by norm_num) (by norm_num)
  · exact floor_eq_of_bounds _ 15 (by norm_num) (by norm_num)

lemma grid_at_lonmax : latlon_to_grid 32.45 44.8 = (13, 7) := by
  unfold latlon_to_grid LON_MIN LAT_MIN KM_PER_DEG_LON KM_PER_DEG_LAT GRID_KM
  refine Prod.ext ?_ ?_ <;> simp only
  · exact floor_eq_of_bounds _ 13 (by norm_num) (by norm_num)
  · exact floor_eq_of_bounds _ 7 (by norm_num) (by norm_num)

lemma init_uavs_none_of_out (p : ℤ × ℤ) (h : ¬ (0 ≤ p.1 ∧ p.1 ≤ 9 ∧ 0 ≤ p.2 ∧ p.2 ≤ 9)) :
    init_uavs p = none := by
  unfold init_uavs
  exact if_neg h

/-! ## Claims about the grid mapping and dispatch -/

/-- C3: `latlon_to_grid` computes exactly
`(floor((lon - 44.1) * 94.0 / 5.0), floor((lat - 32.1) * 111.0 / 5.0))`;
being a pure function of its arguments, it is total and deterministic —
identical input yields the identical cell. -/
theorem latlon_to_grid_formula (lat lon : ℝ) :
    latlon_to_grid lat lon =
      (⌊(lon - 44.1) * 94.0 / 5.0⌋, ⌊(lat - 32.1) * 111.0 / 5.0⌋) := by
  unfold latlon_to_grid LON_MIN LAT_MIN KM_PER_DEG_LON KM_PER_DEG_LAT GRID_KM
  norm_num

/-- C1: contrary to the spec's inclusive-boundary corner case, a position
exactly at `lat_max` (resp. `lon_max`) with the other coordinate in range is
mapped outside the 10×10 grid built by `init_uavs` (gy = 15, resp. gx = 13),
i.e. to a cell with no owning vehicle. -/
theorem boundary_maps_outside_grid :
    latlon_to_grid 32.8 44.45 = (6, 15) ∧ init_uavs (6, 15) = none ∧
    latlon_to_grid 32.45 44.8 = (13, 7) ∧ init_uavs (13, 7) = none := by
  refine ⟨grid_at_latmax, ?_, grid_at_lonmax, ?_⟩
  · exact init_uavs_none_of_out _ (by decide)
  · exact init_uavs_none_of_out _ (by decide)

/-- C2: contrary to the claim, an order geocoded strictly inside the
bounding box (lat 32.7, lon 44.45) maps to cell (6, 13), which has no owning
vehicle in the initialized fleet, so `UAVS[uav_id]` raises `KeyError` and the
request escalates to a transport-level error instead of a structured
response. -/
theorem create_order_keyerror_in_bounds :
    (LAT_MIN ≤ (32.7 : ℝ) ∧ (32.7 : ℝ) ≤ LAT_MAX ∧
      LON_MIN ≤ (44.45 : ℝ) ∧ (44.45 : ℝ) ≤ LON_MAX) ∧
    create_order 1 "x" (some (32.7, 44.45)) init_uavs = Except.error ("KeyError") := by
  have hbox : LAT_MIN ≤ (32.7 : ℝ) ∧ (32.7 : ℝ) ≤ LAT_MAX ∧
      LON_MIN ≤ (44.45 : ℝ) ∧ (44.45 : ℝ) ≤ LON_MAX := by
    unfold LAT_MIN LAT_MAX LON_MIN LON_MAX
    norm_num
  refine ⟨hbox, ?_⟩
  unfold create_order
  dsimp only
  rw [if_neg (not_not_intro hbox)]
  have hg : latlon_to_grid (32.7 : ℝ) 44.45 = (6, 13) := grid_at_327_4445
  simp only [hg, init_uavs_none_of_out (6, 13) (by decide)]

/-- C8: an order whose geocoded position falls outside the inclusive
bounding box is answered with status "rejected", the resolved location still
populated, the fleet returned unchanged, and no log row written. -/
theorem create_order_rejects_out_of_bounds (oid : ℤ) (place : String) (lat lon : ℝ)
    (fleet : Fleet)
    (h : ¬ (LAT_MIN ≤ lat ∧ lat ≤ LAT_MAX ∧ LON_MIN ≤ lon ∧ lon ≤ LON_MAX)) :
    create_order oid place (some (lat, lon)) fleet =
      Except.ok
        ({ order_id := oid, input_place := none, location := some (lat, lon), grid := none,
           assigned_uav := none, eta_minutes := none, status := "rejected",
           reason := some ("Outside service area") }, fleet, none) := by
  unfold create_order
  dsimp only
  rw [if_pos h]

theorem create_order_rejects_witness :
    create_order 2 "y" (some (33.5, 44.45)) init_uavs =
      Except.ok
        ({ order_id := 2, input_place := none, location := some (33.5, 44.45), grid := none,
           assigned_uav := none, eta_minutes := none, status := "rejected",
           reason := some ("Outside service area") }, init_uavs, none) := by
  refine create_order_rejects_out_of_bounds 2 "y" 33.5 44.45 init_uavs ?_
  unfold LAT_MIN LAT_MAX LON_MIN LON_MAX
  norm_num

/-- C7: the ETA `distance_km / speed_kmh * 60` is strictly increasing in the
distance for every fixed positive speed, and strictly decreasing in the
speed for every fixed positive distance. -/
theorem eta_minutes_monotone :
    (∀ s : ℝ, 0 < s → ∀ d1 d2 : ℝ, d1 < d2 → eta_minutes d1 s < eta_minutes d2 s) ∧
    (∀ d : ℝ, 0 < d → ∀ s1 s2 : ℝ, 0 < s1 → s1 < s2 → eta_minutes d s2 < eta_minutes d s1) := by
  constructor
  · intro s hs d1 d2 hd
    unfold eta_minutes
    have h1 : d1 / s < d2 / s := by
      exact div_lt_div_of_pos_right hd hs
    nlinarith
  · intro d hd s1 s2 hs1 hs
    unfold eta_minutes
    have h1 : d / s2 < d / s1 := div_lt_div_of_pos_left hd hs1 hs
    nlinarith

theorem eta_minutes_monotone_witness :
    eta_minutes 1 40 < eta_minutes 2 40 ∧ eta_minutes 1 80 < eta_minutes 1 40 :=
  ⟨eta_minutes_monotone.1 40 (by norm_num) 1 2 (by norm_num),
   eta_minutes_monotone.2 1 (by norm_num) 40 80 (by norm_num) (by norm_num)⟩

/-! ## Movement-loop helper lemmas -/

lemma tick_of_no_target (u : UAV) (h : u.target = none) : tick u = u := by
  unfold tick
  rw [h]

lemma tick_arrives (u : UAV) (t : ℝ × ℝ) (h : u.target = some t)
    (hd : haversine u.lat u.lon t.1 t.2 < 0.05) :
    tick u = { lat := t.1, lon := t.2, status := "idle", target := none } := by
  unfold tick
  rw [h]
  dsimp only
  rw [if_pos hd]

lemma tick_moves (u : UAV) (t : ℝ × ℝ) (h : u.target = some t)
    (hd : ¬ haversine u.lat u.lon t.1 t.2 < 0.05) :
    tick u = { u with
        lat := u.lat + (t.1 - u.lat) * step_per_tick / haversine u.lat u.lon t.1 t.2,
        lon := u.lon + (t.2 - u.lon) * step_per_tick / haversine u.lat u.lon t.1 t.2 } := by
  unfold tick
  rw [h]
  dsimp only
  rw [if_neg hd]

lemma haversine_self (x y : ℝ) : haversine x y x y = 0 := by
  unfold haversine radians
  simp

lemma abs_sin_eq_sin_abs (y : ℝ) (h1 : -Real.pi ≤ y) (h2 : y ≤ Real.pi) :
    |Real.sin y| = Real.sin |y| := by
  rcases le_or_lt 0 y with hy | hy
  · rw [abs_of_nonneg hy, abs_of_nonneg (Real.sin_nonneg_of_nonneg_of_le_pi hy h2)]
  · have h0 : 0 ≤ Real.sin (-y) :=
      Real.sin_nonneg_of_nonneg_of_le_pi (by linarith) (by linarith [Real.pi_pos])
    rw [Real.sin_neg] at h0
    rw [abs_of_neg hy, abs_of_nonpos (by linarith), Real.sin_neg]

/-- On a due-north/south leg (equal longitudes) the haversine distance is an
exact linear function of the latitude difference, as long as half the
latitude difference in radians stays within a quarter turn. -/
lemma haversine_same_lon (lat1 lon lat2 : ℝ) (h : |lat2 - lat1| ≤ 180) :
    haversine lat1 lon lat2 lon = 6371 * Real.pi / 180 * |lat2 - lat1| := by
  have hπ : (0 : ℝ) < Real.pi := Real.pi_pos
  have habs : |(lat2 - lat1) * Real.pi / 180 / 2| = |lat2 - lat1| * Real.pi / 360 := by
    rw [abs_div, abs_div, abs_mul, abs_of_nonneg hπ.le,
      abs_of_nonneg (show (0 : ℝ) ≤ 180 by norm_num),
      abs_of_nonneg (show (0 : ℝ) ≤ 2 by norm_num)]
    ring
  have hle : |lat2 - lat1| * Real.pi / 360 ≤ Real.pi / 2 := by
    have h1 : 0 ≤ (180 - |lat2 - lat1|) * Real.pi := mul_nonneg (by linarith) hπ.le
    nlinarith
  have h0 : 0 ≤ |lat2 - lat1| * Real.pi / 360 := by positivity
  have hyabs : |(lat2 - lat1) * Real.pi / 180 / 2| ≤ Real.pi := by
    rw [habs]
    linarith
  have hy : |Real.sin ((lat2 - lat1) * Real.pi / 180 / 2)| =
      Real.sin |(lat2 - lat1) * Real.pi / 180 / 2| :=
    abs_sin_eq_sin_abs _ (abs_le.mp hyabs).1 (abs_le.mp hyabs).2
  unfold haversine radians
  dsimp only
  rw [sub_self, zero_mul, zero_div, zero_div, Real.sin_zero]
  rw [show ((0 : ℝ)) ^ 2 = 0 by norm_num, mul_zero, add_zero]
  rw [Real.sqrt_sq_eq_abs, hy, Real.arcsin_sin (by rw [habs]; linarith) (by rw [habs]; linarith)]
  rw [habs]
  ring

/-! ## Claims about the per-vehicle state machine -/

/-- The vehicle invariant of the spec: a target is present if and only if
the status is "delivering", equivalently absent iff the status is "idle". -/
def target_status_inv (u : UAV) : Prop :=
  (u.target ≠ none ↔ u.status = "delivering") ∧ (u.target = none ↔ u.status = "idle")

/-- C4: every vehicle mutation — creation in `init_uavs`, the assignment
commit of `create_order`, and one per-vehicle movement tick — preserves the
invariant that the target is present iff the status is "delivering"
(equivalently absent iff "idle"). -/
theorem uav_invariant_preserved :
    (∀ (p : ℤ × ℤ) (u : UAV), init_uavs p = some u → target_status_inv u) ∧
    (∀ (u : UAV) (lat lon : ℝ), target_status_inv (assign_target u lat lon)) ∧
    (∀ u : UAV, target_status_inv u → target_status_inv (tick u)) := by
  refine ⟨?_, ?_, ?_⟩
  · intro p u hp
    unfold init_uavs at hp
    by_cases hin : 0 ≤ p.1 ∧ p.1 ≤ 9 ∧ 0 ≤ p.2 ∧ p.2 ≤ 9
    · rw [if_pos hin] at hp
      cases hp
      simp [target_status_inv, init_uav]
    · rw [if_neg hin] at hp
      exact absurd hp (by simp)
  · intro u lat lon
    simp [target_status_inv, assign_target]
  · intro u hu
    rcases ht : u.target with _ | t
    · rw [tick_of_no_target u ht]
      exact hu
    · by_cases hd : haversine u.lat u.lon t.1 t.2 < 0.05
      · rw [tick_arrives u t ht hd]
        simp [target_status_inv]
      · rw [tick_moves u t ht hd]
        exact hu

theorem uav_invariant_preserved_witness :
    target_status_inv (init_uav 0 0) ∧
    target_status_inv (tick (assign_target (init_uav 0 0) 32.3 44.3)) :=
  ⟨uav_invariant_preserved.1 (0, 0) (init_uav 0 0)
      (by unfold init_uavs; rw [if_pos (by decide)]),
   uav_invariant_preserved.2.2 _ (uav_invariant_preserved.2.1 (init_uav 0 0) 32.3 44.3)⟩

/-- C5: on a tick, a vehicle with a target behaves as the two-branch arrival
test: if the haversine distance to the target is strictly below 0.05 km the
position is snapped exactly onto the target, the target is cleared and the
status becomes "idle"; and the target is cleared on the tick exactly when
that distance test fires (no other branch clears it). -/
theorem tick_arrival_sole_condition (u : UAV) (t : ℝ × ℝ) (ht : u.target = some t) :
    tick u =
      (if haversine u.lat u.lon t.1 t.2 < 0.05 then
        { lat := t.1, lon := t.2, status := "idle", target := none }
      else
        { u with
            lat := u.lat + (t.1 - u.lat) * step_per_tick / haversine u.lat u.lon t.1 t.2,
            lon := u.lon + (t.2 - u.lon) * step_per_tick / haversine u.lat u.lon t.1 t.2 }) ∧
    ((tick u).target = none ↔ haversine u.lat u.lon t.1 t.2 < 0.05) := by
  by_cases hd : haversine u.lat u.lon t.1 t.2 < 0.05
  · rw [tick_arrives u t ht hd, if_pos hd]
    simp [hd]
  · rw [tick_moves u t ht hd, if_neg hd]
    refine ⟨rfl, ?_⟩
    simp only [ht]
    simp [hd]

theorem tick_arrival_sole_condition_witness :
    tick { lat := 32.2, lon := 44.2, status := "delivering", target := some (32.2, 44.2) } =
      (if haversine 32.2 44.2 32.2 44.2 < 0.05 then
        { lat := 32.2, lon := 44.2, status := "idle", target := none }
      else
        { lat := 32.2 + (32.2 - 32.2) * step_per_tick / haversine 32.2 44.2 32.2 44.2,
          lon := 44.2 + (44.2 - 44.2) * step_per_tick / haversine 32.2 44.2 32.2 44.2,
          status := "delivering", target := some (32.2, 44.2) }) ∧
    ((tick { lat := 32.2, lon := 44.2, status := "delivering",
             target := some (32.2, 44.2) }).target = none ↔
      haversine 32.2 44.2 32.2 44.2 < 0.05) :=
  tick_arrival_sole_condition
    { lat := 32.2, lon := 44.2, status := "delivering", target := some (32.2, 44.2) }
    (32.2, 44.2) rfl

/-- C10: in the non-arrival branch of a tick the divisor `dist` is at least
0.05, hence nonzero, and the position update with that divisor is exactly
what the tick performs — the per-vehicle update is total, with no division
by zero for any state with a target. -/
theorem tick_divisor_nonzero (u : UAV) (t : ℝ × ℝ) (ht : u.target = some t)
    (hfar : ¬ haversine u.lat u.lon t.1 t.2 < 0.05) :
    haversine u.lat u.lon t.1 t.2 ≠ 0 ∧
    tick u = { u with
        lat := u.lat + (t.1 - u.lat) * step_per_tick / haversine u.lat u.lon t.1 t.2,
        lon := u.lon + (t.2 - u.lon) * step_per_tick / haversine u.lat u.lon t.1 t.2 } := by
  refine ⟨?_, tick_moves u t ht hfar⟩
  have h05 : (0.05 : ℝ) ≤ haversine u.lat u.lon t.1 t.2 := le_of_not_lt hfar
  intro h0
  rw [h0] at h05
  norm_num at h05

theorem tick_divisor_nonzero_witness :
    haversine 32.1 44.1 32.8 44.1 ≠ 0 ∧
    tick { lat := 32.1, lon := 44.1, status := "delivering", target := some (32.8, 44.1) } =
      { lat := 32.1 + (32.8 - 32.1) * step_per_tick / haversine 32.1 44.1 32.8 44.1,
        lon := 44.1 + (44.1 - 44.1) * step_per_tick / haversine 32.1 44.1 32.8 44.1,
        status := "delivering", target := some (32.8, 44.1) } := by
  refine tick_divisor_nonzero
    { lat := 32.1, lon := 44.1, status := "delivering", target := some (32.8, 44.1) }
    (32.8, 44.1) rfl ?_
  have hsame : haversine (32.1 : ℝ) 44.1 32.8 44.1 = 6371 * Real.pi / 180 * |(32.8 : ℝ) - 32.1| :=
    haversine_same_lon 32.1 44.1 32.8 (by rw [abs_of_nonneg] <;> norm_num)
  rw [not_lt, hsame, abs_of_nonneg (by norm_num : (0 : ℝ) ≤ 32.8 - 32.1)]
  nlinarith [Real.pi_gt_three]

/-! ## Claim about the assignment policy -/

lemma grid_at_322_442 : latlon_to_grid 32.2 44.2 = (1, 2) := by
  unfold latlon_to_grid LON_MIN LAT_MIN KM_PER_DEG_LON KM_PER_DEG_LAT GRID_KM
  refine Prod.ext ?_ ?_ <;> simp only
  · exact floor_eq_of_bounds _ 1 (by norm_num) (by norm_num)
  · exact floor_eq_of_bounds _ 2 (by norm_num) (by norm_num)

/-- C9: an accepted order landing on a cell whose vehicle is already
"delivering" toward `t1` silently overwrites the in-flight target with the
new order's position: the response is a plain "accepted" (no AlreadyBusy
rejection), the vehicle's target becomes the new position while the status
stays "delivering", and the only record produced is the new order's log
row. -/
theorem create_order_overwrites_busy (oid : ℤ) (place : String) (lat lon : ℝ)
    (fleet : Fleet) (u : UAV) (t1 : ℝ × ℝ)
    (hbox : LAT_MIN ≤ lat ∧ lat ≤ LAT_MAX ∧ LON_MIN ≤ lon ∧ lon ≤ LON_MAX)
    (hu : fleet (latlon_to_grid lat lon) = some u)
    (hbusy : u.status = "delivering") (ht1 : u.target = some t1) :
    create_order oid place (some (lat, lon)) fleet =
      Except.ok
        ({ order_id := oid, input_place := some place, location := some (lat, lon),
           grid := some (latlon_to_grid lat lon),
           assigned_uav := some (uav_key (latlon_to_grid lat lon).1 (latlon_to_grid lat lon).2),
           eta_minutes := some (roundTo 1
             (eta_minutes (haversine u.lat u.lon lat lon) UAV_SPEED_KMH)),
           status := "accepted", reason := none },
         Function.update fleet (latlon_to_grid lat lon) (some (assign_target u lat lon)),
         some { order_id := oid, place := place,
                uav := uav_key (latlon_to_grid lat lon).1 (latlon_to_grid lat lon).2,
                eta := roundTo 2
                  (eta_minutes (haversine u.lat u.lon lat lon) UAV_SPEED_KMH) }) ∧
    (assign_target u lat lon).status = "delivering" ∧
    (assign_target u lat lon).target = some (lat, lon) := by
  refine ⟨?_, rfl, rfl⟩
  unfold create_order
  dsimp only
  rw [if_neg (not_not_intro hbox), hu]

/-- Scenario for the busy-overwrite witness: the cell (1, 2) vehicle is
mid-delivery toward (32.3, 44.3). -/
noncomputable def busyUAV : UAV :=
  { lat := 32.25, lon := 44.25, status := "delivering", target := some (32.3, 44.3) }

noncomputable def busyFleet : Fleet := Function.update init_uavs (1, 2) (some busyUAV)

theorem create_order_overwrites_busy_witness :
    create_order 7 "souq" (some (32.2, 44.2)) busyFleet =
      Except.ok
        ({ order_id := 7, input_place := some "souq", location := some (32.2, 44.2),
           grid := some (latlon_to_grid 32.2 44.2),
           assigned_uav := some (uav_key (latlon_to_grid 32.2 44.2).1
             (latlon_to_grid 32.2 44.2).2),
           eta_minutes := some (roundTo 1
             (eta_minutes (haversine busyUAV.lat busyUAV.lon 32.2 44.2) UAV_SPEED_KMH)),
           status := "accepted", reason := none },
         Function.update busyFleet (latlon_to_grid 32.2 44.2)
           (some (assign_target busyUAV 32.2 44.2)),
         some { order_id := 7, place := "souq",
                uav := uav_key (latlon_to_grid 32.2 44.2).1 (latlon_to_grid 32.2 44.2).2,
                eta := roundTo 2
                  (eta_minutes (haversine busyUAV.lat busyUAV.lon 32.2 44.2) UAV_SPEED_KMH) }) ∧
    (assign_target busyUAV 32.2 44.2).status = "delivering" ∧
    (assign_target busyUAV 32.2 44.2).target = some (32.2, 44.2) := by
  refine create_order_overwrites_busy 7 "souq" 32.2 44.2 busyFleet busyUAV (32.3, 44.3)
    ?_ ?_ rfl rfl
  · unfold LAT_MIN LAT_MAX LON_MIN LON_MAX
    norm_num
  · rw [grid_at_322_442]
    unfold busyFleet
    rw [Function.update_same]

/-! ## Movement convergence -/

lemma step_per_tick_pos : (0 : ℝ) < step_per_tick := by
  unfold step_per_tick UAV_SPEED_KMH STEP_TIME
  norm_num

lemma step_per_tick_lt : step_per_tick < 0.05 := by
  unfold step_per_tick UAV_SPEED_KMH STEP_TIME
  norm_num

/-- One non-arrival tick of a vehicle heading due north/south keeps it due
north/south of the target and shortens the haversine distance by exactly one
step: on such a leg the distance is linear in the latitude difference, and
the update scales that difference by `1 - step/dist`. -/
lemma moved_same_lon (u : UAV) (tlat tlon : ℝ) (ht : u.target = some (tlat, tlon))
    (hlon : u.lon = tlon) (hb : |tlat - u.lat| ≤ 180)
    (hfar : ¬ haversine u.lat u.lon tlat tlon < 0.05) :
    (tick u).target = some (tlat, tlon) ∧ (tick u).lon = tlon ∧
    |tlat - (tick u).lat| ≤ 180 ∧
    haversine (tick u).lat (tick u).lon tlat tlon =
      haversine u.lat u.lon tlat tlon - step_per_tick := by
  have hπ : (0 : ℝ) < Real.pi := Real.pi_pos
  have hkpos : (0 : ℝ) < 6371 * Real.pi / 180 := by positivity
  have hDeq : haversine u.lat u.lon tlat tlon = 6371 * Real.pi / 180 * |tlat - u.lat| := by
    rw [hlon]
    exact haversine_same_lon u.lat tlon tlat hb
  have hD05 : (0.05 : ℝ) ≤ haversine u.lat u.lon tlat tlon := not_lt.mp hfar
  have hDpos : (0 : ℝ) < haversine u.lat u.lon tlat tlon := by linarith
  have habspos : (0 : ℝ) < |tlat - u.lat| := by
    rcases lt_or_eq_of_le (abs_nonneg (tlat - u.lat)) with h | h
    · exact h
    · rw [← h, mul_zero] at hDeq
      linarith
  have habsne : |tlat - u.lat| ≠ 0 := ne_of_gt habspos
  have hfrac0 : (0 : ℝ) ≤ step_per_tick / haversine u.lat u.lon tlat tlon :=
    div_nonneg step_per_tick_pos.le hDpos.le
  have hfrac1 : step_per_tick / haversine u.lat u.lon tlat tlon ≤ 1 := by
    rw [div_le_one hDpos]
    linarith [step_per_tick_lt]
  rw [tick_moves u (tlat, tlon) ht hfar]
  dsimp only
  refine ⟨ht, ?_, ?_, ?_⟩
  · rw [hlon, sub_self, zero_mul, zero_div, add_zero]
  · have hnew : tlat - (u.lat + (tlat - u.lat) * step_per_tick /
        haversine u.lat u.lon tlat tlon) =
        (tlat - u.lat) * (1 - step_per_tick / haversine u.lat u.lon tlat tlon) := by
      ring
    rw [hnew, abs_mul, abs_of_nonneg (by linarith : (0 : ℝ) ≤
      1 - step_per_tick / haversine u.lat u.lon tlat tlon)]
    nlinarith [abs_nonneg (tlat - u.lat)]
  · have hlon2 : u.lon + (tlon - u.lon) * step_per_tick /
        haversine u.lat u.lon tlat tlon = tlon := by
      rw [hlon, sub_self, zero_mul, zero_div, add_zero]
    rw [hlon2]
    have hnew : tlat - (u.lat + (tlat - u.lat) * step_per_tick /
        haversine u.lat u.lon tlat tlon) =
        (tlat - u.lat) * (1 - step_per_tick / haversine u.lat u.lon tlat tlon) := by
      ring
    have hbnd : |tlat - (u.lat + (tlat - u.lat) * step_per_tick /
        haversine u.lat u.lon tlat tlon)| ≤ 180 := by
      rw [hnew, abs_mul, abs_of_nonneg (by linarith : (0 : ℝ) ≤
        1 - step_per_tick / haversine u.lat u.lon tlat tlon)]
      nlinarith [abs_nonneg (tlat - u.lat)]
    rw [haversine_same_lon _ tlon _ hbnd, hnew, abs_mul,
      abs_of_nonneg (by linarith : (0 : ℝ) ≤
        1 - step_per_tick / haversine u.lat u.lon tlat tlon)]
    rw [hDeq]
    field_simp
    ring

/-- Convergence induction: once the remaining distance is below
`0.05 + n * step`, `n + 1` further ticks finish the delivery. -/
lemma tick_converge_aux (n : ℕ) :
    ∀ (u : UAV) (tlat tlon : ℝ),
      u.target = some (tlat, tlon) → u.lon = tlon → |tlat - u.lat| ≤ 180 →
      haversine u.lat u.lon tlat tlon < 0.05 + n * step_per_tick →
      tick^[n + 1] u = { lat := tlat, lon := tlon, status := "idle", target := none } := by
  induction n with
  | zero =>
      intro u tlat tlon ht hlon hb hd
      have hd0 : haversine u.lat u.lon tlat tlon < 0.05 := by
        simpa using hd
      simp only [zero_add, Function.iterate_one]
      exact tick_arrives u (tlat, tlon) ht hd0
  | succ n ih =>
      intro u tlat tlon ht hlon hb hd
      by_cases hnear : haversine u.lat u.lon tlat tlon < 0.05
      · rw [Function.iterate_succ_apply, tick_arrives u (tlat, tlon) ht hnear]
        exact Function.iterate_fixed (tick_of_no_target _ rfl) (n + 1)
      · obtain ⟨ht2, hlon2, hb2, hD2⟩ := moved_same_lon u tlat tlon ht hlon hb hnear
        rw [Function.iterate_succ_apply]
        apply ih (tick u) tlat tlon ht2 hlon2 hb2
        rw [hD2]
        have hcast : ((n + 1 : ℕ) : ℝ) = (n : ℝ) + 1 := by push_cast; ring
        rw [hcast] at hd
        linarith [step_per_tick_pos]

/-- On a due-north/south leg whose latitude span lies between 180° and 360°
the haversine is in its wrap-around regime: the computed distance shrinks
linearly as the span grows toward 360°, because `asin` folds `sin` back. -/
lemma haversine_same_lon_wrap (lat1 lon lat2 : ℝ) (h1 : 180 ≤ lat2 - lat1)
    (h2 : lat2 - lat1 ≤ 360) :
    haversine lat1 lon lat2 lon = 2 * 6371 * (Real.pi - (lat2 - lat1) * Real.pi / 360) := by
  have hπ : (0 : ℝ) < Real.pi := Real.pi_pos
  have hx0 : 0 ≤ (lat2 - lat1) * Real.pi / 180 / 2 := by
    nlinarith [mul_nonneg (by linarith : (0 : ℝ) ≤ lat2 - lat1) hπ.le]
  have hx1 : Real.pi / 2 ≤ (lat2 - lat1) * Real.pi / 180 / 2 := by
    nlinarith [mul_nonneg (by linarith : (0 : ℝ) ≤ lat2 - lat1 - 180) hπ.le]
  have hx2 : (lat2 - lat1) * Real.pi / 180 / 2 ≤ Real.pi := by
    nlinarith [mul_nonneg (by linarith : (0 : ℝ) ≤ 360 - (lat2 - lat1)) hπ.le]
  unfold haversine radians
  dsimp only
  rw [sub_self, zero_mul, zero_div, zero_div, Real.sin_zero]
  rw [show ((0 : ℝ)) ^ 2 = 0 by norm_num, mul_zero, add_zero]
  rw [Real.sqrt_sq_eq_abs, abs_of_nonneg (Real.sin_nonneg_of_nonneg_of_le_pi hx0 hx2)]
  rw [← Real.sin_pi_sub, Real.arcsin_sin (by linarith) (by linarith)]
  ring

/-- The same wrap-around regime on a due-east/west leg along the equator
(latitude 0 on both ends, longitude span between 180° and 360°). -/
lemma haversine_equator_wrap (lon1 lon2 : ℝ) (h1 : 180 ≤ lon2 - lon1)
    (h2 : lon2 - lon1 ≤ 360) :
    haversine 0 lon1 0 lon2 = 2 * 6371 * (Real.pi - (lon2 - lon1) * Real.pi / 360) := by
  have hπ : (0 : ℝ) < Real.pi := Real.pi_pos
  have hx0 : 0 ≤ (lon2 - lon1) * Real.pi / 180 / 2 := by
    nlinarith [mul_nonneg (by linarith : (0 : ℝ) ≤ lon2 - lon1) hπ.le]
  have hx1 : Real.pi / 2 ≤ (lon2 - lon1) * Real.pi / 180 / 2 := by
    nlinarith [mul_nonneg (by linarith : (0 : ℝ) ≤ lon2 - lon1 - 180) hπ.le]
  have hx2 : (lon2 - lon1) * Real.pi / 180 / 2 ≤ Real.pi := by
    nlinarith [mul_nonneg (by linarith : (0 : ℝ) ≤ 360 - (lon2 - lon1)) hπ.le]
  unfold haversine radians
  dsimp only
  simp only [sub_self, zero_mul, zero_div, Real.sin_zero, Real.cos_zero, one_mul]
  rw [show ((0 : ℝ)) ^ 2 = 0 by norm_num, zero_add]
  rw [Real.sqrt_sq_eq_abs, abs_of_nonneg (Real.sin_nonneg_of_nonneg_of_le_pi hx0 hx2)]
  rw [← Real.sin_pi_sub, Real.arcsin_sin (by linarith) (by linarith)]
  ring

lemma step_per_tick_val : step_per_tick = 1 / 90 := by
  unfold step_per_tick UAV_SPEED_KMH STEP_TIME
  norm_num

lemma wrapD0_val :
    2 * 6371 * (Real.pi - (359.99955 : ℝ) * Real.pi / 360) = 6371 * Real.pi / 400000 := by
  ring

lemma wrapD0_ge : ¬ (6371 * Real.pi / 400000 : ℝ) < 0.05 := by
  rw [not_lt]
  nlinarith [Real.pi_gt_d6]

lemma wrapD0_ceil : ⌈(6371 * Real.pi / 400000 : ℝ) / step_per_tick⌉₊ = 5 := by
  rw [step_per_tick_val, show (6371 * Real.pi / 400000 : ℝ) / (1 / 90) =
    573390 * Real.pi / 400000 by ring]
  have h3 : 4 < ⌈(573390 * Real.pi / 400000 : ℝ)⌉₊ :=
    Nat.lt_ceil.mpr (by push_cast; nlinarith [Real.pi_gt_d6])
  have h4 : ⌈(573390 * Real.pi / 400000 : ℝ)⌉₊ ≤ 5 :=
    Nat.ceil_le.mpr (by push_cast; nlinarith [Real.pi_lt_d2])
  omega

/-- A vehicle at the equator heading for a target 280°–281° of longitude to
the east is 8000 km or more from it, so each of the next `n` ticks is a
non-arrival move that shifts the longitude gap by at most 0.002°; the
vehicle remains "delivering" throughout. -/
lemma wrap_ticks_equator (n : ℕ) :
    ∀ lon : ℝ, 280 + 0.002 * n ≤ 359.99955 - lon → 359.99955 - lon ≤ 281 →
      (tick^[n] { lat := 0, lon := lon, status := "delivering",
                  target := some ((0 : ℝ), (359.99955 : ℝ)) }).status = "delivering" := by
  induction n with
  | zero =>
      intro lon h1 h2
      rw [Function.iterate_zero_apply]
  | succ n ih =>
      intro lon h1 h2
      have hcast : ((n + 1 : ℕ) : ℝ) = (n : ℝ) + 1 := by push_cast; ring
      rw [hcast] at h1
      have hn0 : (0 : ℝ) ≤ 0.002 * n := by positivity
      have hΔ180 : 180 ≤ 359.99955 - lon := by linarith
      have hΔ360 : 359.99955 - lon ≤ 360 := by linarith
      have hform : haversine 0 lon 0 359.99955 =
          2 * 6371 * (Real.pi - (359.99955 - lon) * Real.pi / 360) :=
        haversine_equator_wrap lon 359.99955 hΔ180 hΔ360
      have hD8000 : (8000 : ℝ) ≤ haversine 0 lon 0 359.99955 := by
        rw [hform]
        nlinarith [mul_nonneg (by linarith : (0 : ℝ) ≤ 360 - (359.99955 - lon) - 79)
          (by nlinarith [Real.pi_gt_three] : (0 : ℝ) ≤ Real.pi - 3), Real.pi_gt_three]
      have hD : ¬ haversine 0 lon 0 359.99955 < 0.05 := by
        rw [not_lt]
        linarith
      have hstep : tick { lat := 0, lon := lon, status := "delivering",
                          target := some ((0 : ℝ), (359.99955 : ℝ)) } =
          { lat := 0,
            lon := lon + (359.99955 - lon) * step_per_tick / haversine 0 lon 0 359.99955,
            status := "delivering", target := some ((0 : ℝ), (359.99955 : ℝ)) } := by
        rw [tick_moves { lat := 0, lon := lon, status := "delivering",
                         target := some ((0 : ℝ), (359.99955 : ℝ)) }
          ((0 : ℝ), (359.99955 : ℝ)) rfl hD]
        simp
      have hshrink : (359.99955 - lon) * step_per_tick / haversine 0 lon 0 359.99955 ≤
          0.002 := by
        rw [div_le_iff₀ (by linarith : (0 : ℝ) < haversine 0 lon 0 359.99955),
          step_per_tick_val]
        nlinarith
      have hge : 0 ≤ (359.99955 - lon) * step_per_tick / haversine 0 lon 0 359.99955 :=
        div_nonneg (mul_nonneg (by linarith) step_per_tick_pos.le) (by linarith)
      rw [Function.iterate_succ_apply, hstep]
      exact ih _ (by linarith) (by linarith)

/-- The same stall on a due-north leg: a vehicle 280°–281° of latitude south
of its target is 8000 km or more away and stays "delivering" for `n` more
ticks. -/
lemma wrap_ticks_meridian (n : ℕ) :
    ∀ vlat : ℝ, 280 + 0.002 * n ≤ 359.99955 - vlat → 359.99955 - vlat ≤ 281 →
      (tick^[n] { lat := vlat, lon := 0, status := "delivering",
                  target := some ((359.99955 : ℝ), (0 : ℝ)) }).status = "delivering" := by
  induction n with
  | zero =>
      intro vlat h1 h2
      rw [Function.iterate_zero_apply]
  | succ n ih =>
      intro vlat h1 h2
      have hcast : ((n + 1 : ℕ) : ℝ) = (n : ℝ) + 1 := by push_cast; ring
      rw [hcast] at h1
      have hn0 : (0 : ℝ) ≤ 0.002 * n := by positivity
      have hΔ180 : 180 ≤ 359.99955 - vlat := by linarith
      have hΔ360 : 359.99955 - vlat ≤ 360 := by linarith
      have hform : haversine vlat 0 359.99955 0 =
          2 * 6371 * (Real.pi - (359.99955 - vlat) * Real.pi / 360) :=
        haversine_same_lon_wrap vlat 0 359.99955 hΔ180 hΔ360
      have hD8000 : (8000 : ℝ) ≤ haversine vlat 0 359.99955 0 := by
        rw [hform]
        nlinarith [mul_nonneg (by linarith : (0 : ℝ) ≤ 360 - (359.99955 - vlat) - 79)
          (by nlinarith [Real.pi_gt_three] : (0 : ℝ) ≤ Real.pi - 3), Real.pi_gt_three]
      have hD : ¬ haversine vlat 0 359.99955 0 < 0.05 := by
        rw [not_lt]
        linarith
      have hstep : tick { lat := vlat, lon := 0, status := "delivering",
                          target := some ((359.99955 : ℝ), (0 : ℝ)) } =
          { lat := vlat + (359.99955 - vlat) * step_per_tick / haversine vlat 0 359.99955 0,
            lon := 0,
            status := "delivering", target := some ((359.99955 : ℝ), (0 : ℝ)) } := by
        rw [tick_moves { lat := vlat, lon := 0, status := "delivering",
                         target := some ((359.99955 : ℝ), (0 : ℝ)) }
          ((359.99955 : ℝ), (0 : ℝ)) rfl hD]
        simp
      have hshrink : (359.99955 - vlat) * step_per_tick / haversine vlat 0 359.99955 0 ≤
          0.002 := by
        rw [div_le_iff₀ (by linarith : (0 : ℝ) < haversine vlat 0 359.99955 0),
          step_per_tick_val]
        nlinarith
      have hge : 0 ≤ (359.99955 - vlat) * step_per_tick / haversine vlat 0 359.99955 0 :=
        div_nonneg (mul_nonneg (by linarith) step_per_tick_pos.le) (by linarith)
      rw [Function.iterate_succ_apply, hstep]
      exact ih _ (by linarith) (by linarith)

/-! ## Claim C6: movement convergence -/

/-- C6 (counterexample): the claim fails at three concrete newly assigned
targets, all with the vehicle's status still "delivering" after the claimed
number of ticks.  (1) A target coinciding with the vehicle's position has
d = 0, so the claimed bound is `ceil(0 / step) = 0` ticks.  (2) A due-east
target 359.99955° of longitude away along the equator has d ≈ 0.05004 km
(wrap-around regime of the haversine), so the claimed bound is 5 ticks, yet
the first move throws the vehicle thousands of kilometres off course.
(3) The same stall on a due-north target 359.99955° of latitude away. -/
theorem movement_convergence_counterexample :
    ((assign_target { lat := 32.2, lon := 44.2, status := "idle", target := none }
        32.2 44.2).status = "delivering" ∧
      (tick^[⌈haversine 32.2 44.2 32.2 44.2 / step_per_tick⌉₊]
        (assign_target { lat := 32.2, lon := 44.2, status := "idle", target := none }
          32.2 44.2)).status ≠ "idle") ∧
    ((assign_target { lat := 0, lon := 0, status := "idle", target := none }
        0 359.99955).status = "delivering" ∧
      0 < haversine 0 0 0 359.99955 ∧
      (tick^[⌈haversine 0 0 0 359.99955 / step_per_tick⌉₊]
        (assign_target { lat := 0, lon := 0, status := "idle", target := none }
          0 359.99955)).status ≠ "idle") ∧
    ((assign_target { lat := 0, lon := 0, status := "idle", target := none }
        359.99955 0).status = "delivering" ∧
      0 < haversine 0 0 359.99955 0 ∧
      (tick^[⌈haversine 0 0 359.99955 0 / step_per_tick⌉₊]
        (assign_target { lat := 0, lon := 0, status := "idle", target := none }
          359.99955 0)).status ≠ "idle") := by
  have hform0 : haversine 0 0 0 359.99955 = 6371 * Real.pi / 400000 := by
    rw [haversine_equator_wrap 0 359.99955 (by norm_num) (by norm_num),
      show (359.99955 : ℝ) - 0 = 359.99955 by norm_num, wrapD0_val]
  have hform0m : haversine 0 0 359.99955 0 = 6371 * Real.pi / 400000 := by
    rw [haversine_same_lon_wrap 0 0 359.99955 (by norm_num) (by norm_num),
      show (359.99955 : ℝ) - 0 = 359.99955 by norm_num, wrapD0_val]
  have hD : ¬ haversine 0 0 0 359.99955 < 0.05 := by
    rw [hform0]
    exact wrapD0_ge
  have hDm : ¬ haversine 0 0 359.99955 0 < 0.05 := by
    rw [hform0m]
    exact wrapD0_ge
  have hceil : ⌈haversine 0 0 0 359.99955 / step_per_tick⌉₊ = 5 := by
    rw [hform0]
    exact wrapD0_ceil
  have hceilm : ⌈haversine 0 0 359.99955 0 / step_per_tick⌉₊ = 5 := by
    rw [hform0m]
    exact wrapD0_ceil
  have hpos : (0 : ℝ) < haversine 0 0 0 359.99955 := by
    rw [hform0]
    positivity
  have hposm : (0 : ℝ) < haversine 0 0 359.99955 0 := by
    rw [hform0m]
    positivity
  have hA : (180135 : ℝ) < 57339 * Real.pi := by nlinarith [Real.pi_gt_d6]
  have hB : (57339 : ℝ) * Real.pi < 180618 := by nlinarith [Real.pi_lt_d2]
  have hC : (0 : ℝ) < 57339 * Real.pi := by positivity
  refine ⟨⟨rfl, ?_⟩, ⟨rfl, hpos, ?_⟩, ⟨rfl, hposm, ?_⟩⟩
  · rw [haversine_self, zero_div, Nat.ceil_zero]
    simp [assign_target]
  · have hstep0 : tick (assign_target
        { lat := 0, lon := 0, status := "idle", target := none } 0 359.99955) =
        { lat := 0, lon := 359.99955 * step_per_tick / haversine 0 0 0 359.99955,
          status := "delivering", target := some ((0 : ℝ), (359.99955 : ℝ)) } := by
      rw [tick_moves (assign_target
          { lat := 0, lon := 0, status := "idle", target := none } 0 359.99955)
        ((0 : ℝ), (359.99955 : ℝ)) rfl hD]
      simp [assign_target]
    have hlon1 : (359.99955 * step_per_tick / haversine 0 0 0 359.99955) *
        (57339 * Real.pi) = 14399982 := by
      rw [hform0, step_per_tick_val]
      field_simp
      ring
    rw [hceil, show (5 : ℕ) = 4 + 1 from rfl, Function.iterate_succ_apply, hstep0,
      wrap_ticks_equator 4 _ (by push_cast; nlinarith [hlon1, hA])
        (by nlinarith [hlon1, hB, hC])]
    decide
  · have hstep0m : tick (assign_target
        { lat := 0, lon := 0, status := "idle", target := none } 359.99955 0) =
        { lat := 359.99955 * step_per_tick / haversine 0 0 359.99955 0, lon := 0,
          status := "delivering", target := some ((359.99955 : ℝ), (0 : ℝ)) } := by
      rw [tick_moves (assign_target
          { lat := 0, lon := 0, status := "idle", target := none } 359.99955 0)
        ((359.99955 : ℝ), (0 : ℝ)) rfl hDm]
      simp [assign_target]
    have hlat1 : (359.99955 * step_per_tick / haversine 0 0 359.99955 0) *
        (57339 * Real.pi) = 14399982 := by
      rw [hform0m, step_per_tick_val]
      field_simp
      ring
    rw [hceilm, show (5 : ℕ) = 4 + 1 from rfl, Function.iterate_succ_apply, hstep0m,
      wrap_ticks_meridian 4 _ (by push_cast; nlinarith [hlat1, hA])
        (by nlinarith [hlat1, hB, hC])]
    decide

/-- C6 (amended): for a vehicle due north or south of its assigned target
(equal longitudes, latitude difference at most 180°) at haversine distance
`d > 0`, after `ceil(d / step_per_tick)` ticks the vehicle is "idle" and
sits exactly on the target, in particular within the 0.05 km arrival
threshold. -/
theorem movement_converges_due_north (u : UAV) (tlat tlon : ℝ)
    (ht : u.target = some (tlat, tlon)) (hlon : u.lon = tlon)
    (hb : |tlat - u.lat| ≤ 180)
    (hd : 0 < haversine u.lat u.lon tlat tlon) :
    (tick^[⌈haversine u.lat u.lon tlat tlon / step_per_tick⌉₊] u).status = "idle" ∧
    (tick^[⌈haversine u.lat u.lon tlat tlon / step_per_tick⌉₊] u).lat = tlat ∧
    (tick^[⌈haversine u.lat u.lon tlat tlon / step_per_tick⌉₊] u).lon = tlon ∧
    haversine (tick^[⌈haversine u.lat u.lon tlat tlon / step_per_tick⌉₊] u).lat
      (tick^[⌈haversine u.lat u.lon tlat tlon / step_per_tick⌉₊] u).lon tlat tlon
      < 0.05 := by
  have hN : 0 < ⌈haversine u.lat u.lon tlat tlon / step_per_tick⌉₊ :=
    Nat.ceil_pos.mpr (div_pos hd step_per_tick_pos)
  obtain ⟨m, hm⟩ := Nat.exists_eq_succ_of_ne_zero (Nat.pos_iff_ne_zero.mp hN)
  have hm2 : ⌈haversine u.lat u.lon tlat tlon / step_per_tick⌉₊ = m + 1 := hm
  have hle : haversine u.lat u.lon tlat tlon / step_per_tick ≤ ((m + 1 : ℕ) : ℝ) := by
    rw [← hm2]
    exact Nat.le_ceil _
  have h1 : haversine u.lat u.lon tlat tlon ≤ ((m : ℝ) + 1) * step_per_tick := by
    rw [div_le_iff₀ step_per_tick_pos] at hle
    push_cast at hle
    linarith
  have hD : haversine u.lat u.lon tlat tlon < 0.05 + m * step_per_tick := by
    nlinarith [step_per_tick_lt]
  have hdone := tick_converge_aux m u tlat tlon ht hlon hb hD
  rw [hm2, hdone]
  refine ⟨rfl, rfl, rfl, ?_⟩
  rw [haversine_self]
  norm_num

theorem movement_converges_due_north_witness :
    (tick^[⌈haversine 32.2 44.2 32.4 44.2 / step_per_tick⌉₊]
        { lat := 32.2, lon := 44.2, status := "delivering",
          target := some ((32.4 : ℝ), (44.2 : ℝ)) }).status = "idle" ∧
    (tick^[⌈haversine 32.2 44.2 32.4 44.2 / step_per_tick⌉₊]
        { lat := 32.2, lon := 44.2, status := "delivering",
          target := some ((32.4 : ℝ), (44.2 : ℝ)) }).lat = 32.4 ∧
    (tick^[⌈haversine 32.2 44.2 32.4 44.2 / step_per_tick⌉₊]
        { lat := 32.2, lon := 44.2, status := "delivering",
          target := some ((32.4 : ℝ), (44.2 : ℝ)) }).lon = 44.2 ∧
    haversine
      (tick^[⌈haversine 32.2 44.2 32.4 44.2 / step_per_tick⌉₊]
        { lat := 32.2, lon := 44.2, status := "delivering",
          target := some ((32.4 : ℝ), (44.2 : ℝ)) }).lat
      (tick^[⌈haversine 32.2 44.2 32.4 44.2 / step_per_tick⌉₊]
        { lat := 32.2, lon := 44.2, status := "delivering",
          target := some ((32.4 : ℝ), (44.2 : ℝ)) }).lon 32.4 44.2 < 0.05 := by
  have hb : |(32.4 : ℝ) - 32.2| ≤ 180 := by
    rw [show (32.4 : ℝ) - 32.2 = 0.2 by norm_num,
      abs_of_nonneg (by norm_num : (0 : ℝ) ≤ 0.2)]
    norm_num
  have hd : (0 : ℝ) < haversine 32.2 44.2 32.4 44.2 := by
    rw [haversine_same_lon 32.2 44.2 32.4 hb,
      show (32.4 : ℝ) - 32.2 = 0.2 by norm_num,
      abs_of_nonneg (by norm_num : (0 : ℝ) ≤ 0.2)]
    positivity
  exact movement_converges_due_north
    { lat := 32.2, lon := 44.2, status := "delivering",
      target := some ((32.4 : ℝ), (44.2 : ℝ)) } 32.4 44.2 rfl rfl hb hd
